import Mathlib

/-!
# A verification development for the users/courses REST API

Embedded sources:

* `src/middleware/userAuth.js` : the Basic-Authentication middleware `authenticateUser`;
* `src/routes.js` : the seven route handlers and the table that registers them.

The relational store is a pair of lists (accounts, courses).  Requests are taken after
body parsing: the attributes a handler reads are present and typed, and the path
parameter `:id` is a primary key.  Console output is kept as an ordered list of lines.
The libraries `basic-auth` and `bcryptjs` are parameters (`AuthLib`); the write side of
the models, which is not part of the embedded sources, is a parameter as well (`Models`).
-/

namespace RestApi

/-! ## Data model -/

/-- An account row: the attributes the handlers and the middleware read. -/
structure User where
  id : Nat
  firstName : String
  lastName : String
  emailAddress : String
  password : String
deriving DecidableEq, Repr

/-- A course row; `userId` is the reference to the owning account. -/
structure Course where
  id : Nat
  title : String
  description : String
  userId : Nat
deriving DecidableEq, Repr

/-- The persistent store: the two tables. -/
structure Store where
  users : List User
  courses : List Course
deriving DecidableEq, Repr

/-- One entry of `error.errors`; only `message` is read (`err => err.message`). -/
structure ValidationErrorItem where
  message : String
deriving DecidableEq, Repr

/-- A thrown JavaScript error: `error.name` and `error.errors` are what the handlers read. -/
structure JsError where
  name : String
  errors : List ValidationErrorItem
deriving DecidableEq, Repr

/-- The value `auth(req)` yields when the header parses: `credientials.name`, `.pass`. -/
structure Credentials where
  name : String
  pass : String
deriving DecidableEq, Repr

/-- The parsed JSON body `req.body`, with the attributes the handlers and models read. -/
structure RequestBody where
  firstName : String
  lastName : String
  emailAddress : String
  password : String
  title : String
  description : String
  userId : Nat
deriving DecidableEq, Repr

/-- The object literal `{ title, description, userId }` handed to `Course.create` and
`course.update`. -/
structure CourseFields where
  title : String
  description : String
  userId : Nat
deriving DecidableEq, Repr

/-- The Express request: the `Authorization` header, `req.params.id`, `req.body`, and the
property `req.currentUser` that the middleware may set. -/
structure Request where
  authorization : Option String
  id : Nat
  body : RequestBody
  currentUser : Option User
deriving DecidableEq, Repr

/-- The owner projection `attributes: [id, firstName, lastName, emailAddress]`. -/
structure OwnerProjection where
  id : Nat
  firstName : String
  lastName : String
  emailAddress : String
deriving DecidableEq, Repr

/-- JSON payloads written with `res.json`. -/
inductive Body where
  | message (m : String)
  | errors (l : List String)
  | user (u : OwnerProjection)
  | course (c : Option (Course × Option User))
  | courses (l : List (Course × Option OwnerProjection))
deriving DecidableEq, Repr

/-- The Express response: the status set by `res.status`, the `Location` header, the
payload written by `res.json`, and whether the response was finished (`json` or `end`). -/
structure Response where
  statusCode : Option Nat
  location : Option String
  json : Option Body
  ended : Bool
deriving DecidableEq, Repr

/-- The response object as Express hands it to the first handler of a route. -/
def Response.fresh : Response :=
  { statusCode := none, location := none, json := none, ended := false }

/-- Chainable `res.status(code)`. -/
def Response.status (res : Response) (code : Nat) : Response :=
  { res with statusCode := some code }

/-- Chainable `res.location(url)`. -/
def Response.setLocation (res : Response) (url : String) : Response :=
  { res with location := some url }

/-- Sending a payload with `res.json(body)`: it finishes the response. -/
def Response.sendJson (res : Response) (b : Body) : Response :=
  { res with json := some b, ended := true }

/-- Finishing with `res.end()`: no payload. -/
def Response.finish (res : Response) : Response :=
  { res with ended := true }

/-! ## External libraries and store reads -/

/-- The two libraries the middleware requires: `parse` is the header decoder of
`basic-auth`, `compareSync` is the hash comparison of `bcryptjs`. -/
structure AuthLib where
  parse : String → Option Credentials
  compareSync : String → String → Bool

/-- The call `auth(req)`: nothing without an `Authorization` header, otherwise whatever
the decoder makes of it (nothing when it is malformed). -/
def auth (A : AuthLib) (req : Request) : Option Credentials :=
  req.authorization.bind A.parse

/-- Modelled from the spec: the query `User.findOne` with `where: emailAddress` of the
absent models module, as "look up exactly one Account whose email address equals the
parsed username"; the first matching row, or nothing. -/
def User.findOne (st : Store) (emailAddress : String) : Option User :=
  st.users.find? (fun u => u.emailAddress == emailAddress)

/-- Modelled from the spec: the query `Course.findByPk` of the absent models module,
"read Course by id"; nothing when the id does not resolve. -/
def Course.findByPk (st : Store) (courseId : Nat) : Option Course :=
  st.courses.find? (fun c => c.id == courseId)

/-- Modelled from the spec: the join of the alias `owner`, the account the course
refers to. -/
def Course.owner (st : Store) (c : Course) : Option User :=
  st.users.find? (fun u => u.id == c.userId)

/-- The public fields of an account. -/
def User.projection (u : User) : OwnerProjection :=
  { id := u.id, firstName := u.firstName, lastName := u.lastName,
    emailAddress := u.emailAddress }

/-- Modelled from the spec: the query `Course.findAll` with the owner projection,
"read all Courses, join owner projection". -/
def Course.findAll (st : Store) : List (Course × Option OwnerProjection) :=
  st.courses.map (fun c => (c, (Course.owner st c).map User.projection))

/-! ## `middleware/userAuth.js` -/

/-- What the middleware leaves behind: the request (with `currentUser` when set), the
response, how many times `next` was called, and the console lines in order. -/
structure AuthOut where
  req : Request
  res : Response
  nextCalls : Nat
  log : List String
deriving DecidableEq, Repr

/-- JavaScript truthiness of `message`: `undefined` and the empty string are falsy. -/
def truthy : Option String → Bool
  | none => false
  | some m => decide (m ≠ "")

/-- The first half of `authenticateUser` (lines 14-35): the diagnostic `message`, the
request after the possible assignment of `currentUser`, and the lines logged so far.
The account row carries no `username`, so the success line interpolates `undefined`. -/
def authenticateUser.check (A : AuthLib) (st : Store) (req : Request) :
    Option String × Request × List String :=
  match auth A req with
  | some credientials =>
    match User.findOne st credientials.name with
    | some user =>
      if A.compareSync credientials.pass user.password then
        (none, { req with currentUser := some user },
          ["Authentication successful for username: undefined"])
      else
        (some ("Authentication failure for username: " ++ user.emailAddress), req, [])
    | none =>
      (some ("No user found with email address: " ++ credientials.name), req, [])
  | none => (some "Auth header not found", req, [])

/-- The middleware `authenticateUser(req, res, next)`. -/
def authenticateUser (A : AuthLib) (st : Store) (req : Request) (res : Response) : AuthOut :=
  match authenticateUser.check A st req with
  | (message, req1, log) =>
    if truthy message then
      { req := req1,
        res := (res.status 401).sendJson (Body.message "Access Denied"),
        nextCalls := 0,
        log := log ++ [message.getD ""] }
    else
      { req := req1, res := res, nextCalls := 1, log := log }

/-- The three reasons for which the verifier turns a request away: no usable header, no
account with the parsed email address, or a failed hash comparison on the account found. -/
def Rejected (A : AuthLib) (st : Store) (req : Request) : Prop :=
  auth A req = none ∨
  (∃ c, auth A req = some c ∧ ∀ u ∈ st.users, u.emailAddress ≠ c.name) ∨
  (∃ c u, auth A req = some c ∧ User.findOne st c.name = some u ∧
    A.compareSync c.pass u.password = false)

/-- The request carries the valid credentials of the account `u`. -/
def Authenticated (A : AuthLib) (st : Store) (req : Request) (u : User) : Prop :=
  ∃ c, auth A req = some c ∧ User.findOne st c.name = some u ∧
    A.compareSync c.pass u.password = true

/-! ## `routes.js` -/

/-- The write side of the models (`User.create`, `Course.create`, `course.update`,
`course.destroy`), which lives outside the embedded sources and is therefore a
parameter.  A call either resolves with the new store (and the created row) or rejects
with an error; a rejected call leaves the store as it was. -/
structure Models where
  userCreate : Store → RequestBody → Except JsError Store
  courseCreate : Store → CourseFields → Except JsError (Course × Store)
  courseUpdate : Store → Course → CourseFields → Except JsError Store
  courseDestroy : Store → Course → Except JsError Store

/-- What a route handler leaves behind: the response, the store, the console lines, and
the error it threw, if any (the rejection of the async function). -/
structure HandlerOut where
  res : Response
  store : Store
  log : List String
  thrown : Option JsError
deriving DecidableEq, Repr

/-- The error JavaScript raises for a property access on `null` or `undefined`. -/
def typeError : JsError :=
  { name := "TypeError", errors := [] }

/-- The object literal built from `req.body.title`, `req.body.description` and
`req.body.userId`. -/
def courseFields (req : Request) : CourseFields :=
  { title := req.body.title, description := req.body.description,
    userId := req.body.userId }

/-- The `catch (error)` block, textually the same in `POST /users`, `POST /courses` and
`PUT /courses/:id`: log the name, translate the two Sequelize kinds into a 400 with the
messages, rethrow anything else. -/
def catchBlock (st : Store) (res : Response) (error : JsError) : HandlerOut :=
  if error.name = "SequelizeValidationError" ∨
      error.name = "SequelizeUniqueConstraintError" then
    let errors := error.errors.map (fun err => err.message)
    { res := (res.status 400).sendJson (Body.errors errors), store := st,
      log := ["ERROR:  " ++ error.name], thrown := none }
  else
    { res := res, store := st, log := ["ERROR:  " ++ error.name], thrown := some error }

/-- Handler of `GET /users`. -/
def getUsers (st : Store) (req : Request) (res : Response) : HandlerOut :=
  match req.currentUser with
  | some user =>
    { res := (res.status 200).sendJson (Body.user
        { id := user.id, firstName := user.firstName, lastName := user.lastName,
          emailAddress := user.emailAddress }),
      store := st, log := [], thrown := none }
  | none => { res := res, store := st, log := [], thrown := some typeError }

/-- Handler of `POST /users`. -/
def postUsers (M : Models) (st : Store) (req : Request) (res : Response) : HandlerOut :=
  match M.userCreate st req.body with
  | .ok st1 =>
    { res := ((res.setLocation "/").status 201).finish, store := st1, log := [],
      thrown := none }
  | .error error => catchBlock st res error

/-- Handler of `GET /courses`. -/
def getCourses (st : Store) (_req : Request) (res : Response) : HandlerOut :=
  let courses := Course.findAll st
  { res := (res.status 200).sendJson (Body.courses courses), store := st, log := [],
    thrown := none }

/-- Handler of `GET /courses/:id`; the payload is `null` when the id does not resolve. -/
def getCourseById (st : Store) (req : Request) (res : Response) : HandlerOut :=
  let courseId := req.id
  let course := (Course.findByPk st courseId).map (fun c => (c, Course.owner st c))
  { res := (res.status 200).sendJson (Body.course course), store := st, log := [],
    thrown := none }

/-- Handler of `POST /courses`. -/
def postCourses (M : Models) (st : Store) (req : Request) (res : Response) : HandlerOut :=
  match M.courseCreate st (courseFields req) with
  | .ok (course, st1) =>
    { res := ((res.status 201).setLocation ("courses/" ++ toString course.id)).finish,
      store := st1, log := [], thrown := none }
  | .error error => catchBlock st res error

/-- Handler of `PUT /courses/:id`.  With no row for the id, `course` is `null` and
`course.update` raises a `TypeError` inside the `try`. -/
def putCourse (M : Models) (st : Store) (req : Request) (res : Response) : HandlerOut :=
  let courseId := req.id
  match Course.findByPk st courseId with
  | some course =>
    match M.courseUpdate st course (courseFields req) with
    | .ok st1 => { res := (res.status 204).finish, store := st1, log := [], thrown := none }
    | .error error => catchBlock st res error
  | none => catchBlock st res typeError

/-- Handler of `DELETE /courses/:id`.  There is no `try` here: every error is thrown. -/
def deleteCourse (M : Models) (st : Store) (req : Request) (res : Response) : HandlerOut :=
  let courseId := req.id
  match Course.findByPk st courseId with
  | some course =>
    match M.courseDestroy st course with
    | .ok st1 => { res := (res.status 204).finish, store := st1, log := [], thrown := none }
    | .error error => { res := res, store := st, log := [], thrown := some error }
  | none => { res := res, store := st, log := [], thrown := some typeError }

/-- The routes registered on the router, in source order: `GET /users`, `POST /users`,
`GET /courses`, `GET /courses/:id`, `POST /courses`, `PUT /courses/:id`,
`DELETE /courses/:id`. -/
inductive Endpoint where
  | listSelf
  | createAccount
  | listCourses
  | getCourse
  | createCourse
  | updateCourse
  | removeCourse
deriving DecidableEq, Repr

/-- The async function registered for each route. -/
def Endpoint.handler (M : Models) : Endpoint → Store → Request → Response → HandlerOut
  | .listSelf => getUsers
  | .createAccount => postUsers M
  | .listCourses => getCourses
  | .getCourse => getCourseById
  | .createCourse => postCourses M
  | .updateCourse => putCourse M
  | .removeCourse => deleteCourse M

/-- Whether `authenticateUser` is registered in front of the handler. -/
def Endpoint.authRequired : Endpoint → Bool
  | .listSelf => true
  | .createAccount => false
  | .listCourses => false
  | .getCourse => false
  | .createCourse => true
  | .updateCourse => true
  | .removeCourse => true

/-- The result of dispatching one request: the final response, store and request, how
often the route handler ran, the console lines, and the error that reached the
process-wide fallback, if any. -/
structure Outcome where
  res : Response
  store : Store
  req : Request
  handlerRuns : Nat
  log : List String
  thrown : Option JsError
deriving DecidableEq, Repr

/-- Modelled from the spec: the process-wide fallback of the absent application module,
"a generic handler returning 500 with no structured body guarantee"; the payload is left
as the handler left it. -/
def errorFallback (res : Response) (_error : JsError) : Response :=
  (res.status 500).finish

/-- Modelled from the spec: the wrapper of the absent module `middleware/asyncHandler`;
a failure that the handler does not handle locally "propagates to a process-wide
fallback that returns 500". -/
def asyncHandler (h : Store → Request → Response → HandlerOut)
    (st : Store) (req : Request) (res : Response) : Outcome :=
  let out := h st req res
  match out.thrown with
  | none =>
    { res := out.res, store := out.store, req := req, handlerRuns := 1, log := out.log,
      thrown := none }
  | some error =>
    { res := errorFallback out.res error, store := out.store, req := req,
      handlerRuns := 1, log := out.log, thrown := some error }

/-- Dispatch of one request to a route: the middleware chain registered in `routes.js`.
When the verifier does not call `next`, the chain stops with the response it wrote. -/
def router (A : AuthLib) (M : Models) (e : Endpoint) (st : Store) (req : Request) : Outcome :=
  if e.authRequired then
    let a := authenticateUser A st req Response.fresh
    if a.nextCalls = 0 then
      { res := a.res, store := st, req := a.req, handlerRuns := 0, log := a.log,
        thrown := none }
    else
      let o := asyncHandler (e.handler M) st a.req a.res
      { o with log := a.log ++ o.log }
  else
    asyncHandler (e.handler M) st req Response.fresh

/-! ## The store, as the specification describes it -/

/-- The parts of the model definitions the specification leaves to the store: the
field-level checks of the two entities, the two messages of the reference and
uniqueness checks, and the one-way hash applied to the secret at account creation. -/
structure Validation where
  userErrors : RequestBody → List ValidationErrorItem
  courseErrors : CourseFields → List ValidationErrorItem
  emailInUse : ValidationErrorItem
  ownerMissing : ValidationErrorItem
  hash : String → String

/-- An identifier that no listed row uses. -/
def freshId (ids : List Nat) : Nat :=
  ids.foldr max 0 + 1

/-- Modelled from the spec: the check behind "owning account reference must reference
an existing Account at creation/update time (enforced by the store)". -/
def ownerErrors (V : Validation) (st : Store) (f : CourseFields) : List ValidationErrorItem :=
  if st.users.any (fun u => u.id == f.userId) then [] else [V.ownerMissing]

/-- Modelled from the spec: `User.create` of the absent models module, "insert Account
from request body"; a field-level violation is a validation-kind failure, a second
account with the same email address a uniqueness-kind failure, and the secret is stored
hashed. -/
def specUserCreate (V : Validation) (st : Store) (b : RequestBody) : Except JsError Store :=
  match V.userErrors b with
  | [] =>
    if st.users.any (fun u => u.emailAddress == b.emailAddress) then
      .error { name := "SequelizeUniqueConstraintError", errors := [V.emailInUse] }
    else
      .ok { st with users := st.users ++
        [{ id := freshId (st.users.map (fun u => u.id)), firstName := b.firstName,
           lastName := b.lastName, emailAddress := b.emailAddress,
           password := V.hash b.password }] }
  | e :: es => .error { name := "SequelizeValidationError", errors := e :: es }

/-- Modelled from the spec: `Course.create` of the absent models module, "insert Course
{title, description, ownerId}"; a violated field-level constraint, the owner reference
among them, is a validation-kind failure and nothing is inserted. -/
def specCourseCreate (V : Validation) (st : Store) (f : CourseFields) :
    Except JsError (Course × Store) :=
  match V.courseErrors f ++ ownerErrors V st f with
  | [] =>
    let course : Course :=
      { id := freshId (st.courses.map (fun c => c.id)), title := f.title,
        description := f.description, userId := f.userId }
    .ok (course, { st with courses := st.courses ++ [course] })
  | e :: es => .error { name := "SequelizeValidationError", errors := e :: es }

/-- Modelled from the spec: `course.update` of the absent models module, "apply {title,
description, ownerId}" to the loaded row, under the same checks as creation. -/
def specCourseUpdate (V : Validation) (st : Store) (course : Course) (f : CourseFields) :
    Except JsError Store :=
  match V.courseErrors f ++ ownerErrors V st f with
  | [] =>
    .ok { st with courses := st.courses.map (fun c =>
      if c.id == course.id then
        { c with title := f.title, description := f.description, userId := f.userId }
      else c) }
  | e :: es => .error { name := "SequelizeValidationError", errors := e :: es }

/-- Modelled from the spec: `course.destroy` of the absent models module, "remove it". -/
def specCourseDestroy (st : Store) (course : Course) : Except JsError Store :=
  .ok { st with courses := st.courses.filter (fun c => c.id != course.id) }

/-- Modelled from the spec: the write side of the absent models module, assembled. -/
def specModels (V : Validation) : Models :=
  { userCreate := specUserCreate V,
    courseCreate := specCourseCreate V,
    courseUpdate := specCourseUpdate V,
    courseDestroy := specCourseDestroy }

/-! ## Concrete data for the instances -/

/-- A decoder that accepts two header values. -/
def demoLib : AuthLib :=
  { parse := fun h =>
      if h = "Basic am8=" then some { name := "jo@example.com", pass := "secret1" }
      else if h = "Basic YW5u" then some { name := "ann@example.com", pass := "secret2" }
      else none,
    compareSync := fun pass stored => stored == "h:" ++ pass }

/-- The account of Jo. -/
def jo : User :=
  { id := 1, firstName := "Jo", lastName := "Lee", emailAddress := "jo@example.com",
    password := "h:secret1" }

/-- The account of Ann. -/
def ann : User :=
  { id := 2, firstName := "Ann", lastName := "Roe", emailAddress := "ann@example.com",
    password := "h:secret2" }

/-- A course owned by Jo. -/
def algebra : Course :=
  { id := 7, title := "Algebra", description := "Groups and rings", userId := 1 }

/-- A store with two accounts and one course. -/
def demoStore : Store :=
  { users := [jo, ann], courses := [algebra] }

/-- A request body. -/
def demoBody : RequestBody :=
  { firstName := "Jo", lastName := "Lee", emailAddress := "jo@example.com",
    password := "secret1", title := "Logic", description := "Proofs", userId := 2 }

/-- A request without an `Authorization` header. -/
def anonymous : Request :=
  { authorization := none, id := 7, body := demoBody, currentUser := none }

/-- The same request with the credentials of Jo. -/
def asJo : Request :=
  { anonymous with authorization := some "Basic am8=" }

/-- The same request with the credentials of Ann. -/
def asAnn : Request :=
  { anonymous with authorization := some "Basic YW5u" }

/-- Store checks that accept every body. -/
def lenient : Validation :=
  { userErrors := fun _ => [], courseErrors := fun _ => [],
    emailInUse := { message := "Email address already in use" },
    ownerMissing := { message := "Owner does not exist" },
    hash := fun s => "h:" ++ s }

/-- The store call made by the handler of a route rejects with `error`: the call in the
`try` block of `POST /users`, `POST /courses` and `PUT /courses/:id` (for the last one,
the update of the row that was found). -/
def StoreFails (M : Models) (st : Store) (req : Request) (error : JsError) : Endpoint → Prop
  | .createAccount => M.userCreate st req.body = .error error
  | .createCourse => M.courseCreate st (courseFields req) = .error error
  | .updateCourse => ∃ course, Course.findByPk st req.id = some course ∧
      M.courseUpdate st course (courseFields req) = .error error
  | _ => False

/-- The two failure kinds the `catch` blocks translate. -/
def ValidationKind (error : JsError) : Prop :=
  error.name = "SequelizeValidationError" ∨ error.name = "SequelizeUniqueConstraintError"

/-- A store whose every write rejects with the given error. -/
def failing (error : JsError) : Models :=
  { userCreate := fun _ _ => .error error,
    courseCreate := fun _ _ => .error error,
    courseUpdate := fun _ _ _ => .error error,
    courseDestroy := fun _ _ => .error error }

/-- A uniqueness-kind failure with two messages. -/
def duplicateEmail : JsError :=
  { name := "SequelizeUniqueConstraintError",
    errors := [{ message := "Email address already in use" }, { message := "second" }] }

/-- A failure of another kind. -/
def connectionLost : JsError :=
  { name := "SequelizeConnectionError", errors := [] }

/-! ## Lemmas on the middleware -/

theorem truthy_append (p s : String) (hp : p.length ≠ 0) : truthy (some (p ++ s)) = true := by
  have hne : p ++ s ≠ "" := by
    intro h
    have hl := congrArg String.length h
    rw [String.length_append] at hl
    have h0 : ("" : String).length = 0 := rfl
    omega
  simp [truthy, hne]

theorem findOne_eq_none (st : Store) (name : String)
    (h : ∀ u ∈ st.users, u.emailAddress ≠ name) : User.findOne st name = none := by
  unfold User.findOne
  rw [List.find?_eq_none]
  intro u hu
  simpa using h u hu

theorem findOne_some_mem (st : Store) (name : String) (u : User)
    (h : User.findOne st name = some u) : u ∈ st.users ∧ u.emailAddress = name := by
  unfold User.findOne at h
  refine ⟨List.mem_of_find?_eq_some h, ?_⟩
  simpa using List.find?_some h

/-- Under the invariant of the data model (one account per email address), the lookup
returns the account the store holds for the address. -/
theorem findOne_of_unique (st : Store) (name : String) (u : User) (hu : u ∈ st.users)
    (he : u.emailAddress = name)
    (huniq : ∀ v ∈ st.users, v.emailAddress = name → v = u) :
    User.findOne st name = some u := by
  cases hf : User.findOne st name with
  | none =>
    unfold User.findOne at hf
    rw [List.find?_eq_none] at hf
    exact absurd he (by simpa using hf u hu)
  | some v =>
    obtain ⟨hv, hve⟩ := findOne_some_mem st name v hf
    rw [huniq v hv hve]

/-- Every rejected request leaves the middleware with the same denial written on the
response, `next` not called and the request object untouched. -/
theorem authenticateUser_of_rejected (A : AuthLib) (st : Store) (req : Request)
    (res : Response) (h : Rejected A st req) :
    (authenticateUser A st req res).res
        = (res.status 401).sendJson (Body.message "Access Denied") ∧
      (authenticateUser A st req res).nextCalls = 0 ∧
      (authenticateUser A st req res).req = req := by
  rcases h with h | ⟨c, hc, hn⟩ | ⟨c, u, hc, hu, hp⟩
  · simp [authenticateUser, authenticateUser.check, h, truthy]
  · have hf := findOne_eq_none st c.name hn
    have ht := truthy_append "No user found with email address: " c.name (by decide)
    simp [authenticateUser, authenticateUser.check, hc, hf, ht]
  · have ht := truthy_append "Authentication failure for username: " u.emailAddress
      (by decide)
    simp [authenticateUser, authenticateUser.check, hc, hu, hp, ht]

/-- A request with valid credentials passes the middleware: `currentUser` is the account
found, `next` is called once and the response is not touched. -/
theorem authenticateUser_of_authenticated (A : AuthLib) (st : Store) (req : Request)
    (res : Response) (u : User) (h : Authenticated A st req u) :
    authenticateUser A st req res =
      { req := { req with currentUser := some u }, res := res, nextCalls := 1,
        log := ["Authentication successful for username: undefined"] } := by
  obtain ⟨c, hc, hu, hp⟩ := h
  simp [authenticateUser, authenticateUser.check, hc, hu, hp, truthy]

/-! ## Lemmas on the handlers -/

theorem catchBlock_of_kind (st : Store) (res : Response) (error : JsError)
    (hk : ValidationKind error) :
    catchBlock st res error =
      { res := (res.status 400).sendJson
          (Body.errors (error.errors.map (fun err => err.message))),
        store := st, log := ["ERROR:  " ++ error.name], thrown := none } := by
  unfold ValidationKind at hk
  simp [catchBlock, hk]

theorem catchBlock_of_other (st : Store) (res : Response) (error : JsError)
    (hk : ¬ ValidationKind error) :
    catchBlock st res error =
      { res := res, store := st, log := ["ERROR:  " ++ error.name], thrown := some error } := by
  unfold ValidationKind at hk
  simp [catchBlock, hk]

theorem typeError_not_kind : ¬ ValidationKind typeError := by
  unfold ValidationKind typeError
  decide

/-- A failing store call hands the error to the `catch` block of the handler. -/
theorem handler_of_storeFails (M : Models) (st : Store) (req : Request) (res : Response)
    (error : JsError) (e : Endpoint) (hf : StoreFails M st req error e) :
    e.handler M st req res = catchBlock st res error := by
  cases e <;> simp only [StoreFails] at hf
  · simp [Endpoint.handler, postUsers, hf]
  · simp [Endpoint.handler, postCourses, hf]
  · obtain ⟨course, hc, hu⟩ := hf
    simp [Endpoint.handler, putCourse, hc, hu]

/-- The course handlers and `POST /users` never read `req.currentUser`. -/
theorem handler_currentUser (M : Models) (e : Endpoint) (he : e ≠ .listSelf) (st : Store)
    (req : Request) (res : Response) (x : Option User) :
    e.handler M st { req with currentUser := x } res = e.handler M st req res := by
  cases e <;> first
    | exact absurd rfl he
    | simp [Endpoint.handler, postUsers, getCourses, getCourseById, postCourses, putCourse,
        deleteCourse, courseFields]

/-- Dispatch of a rejected request to a route that requires authentication. -/
theorem router_of_rejected (A : AuthLib) (M : Models) (e : Endpoint) (st : Store)
    (req : Request) (he : e.authRequired = true) (h : Rejected A st req) :
    router A M e st req =
      { res := (Response.fresh.status 401).sendJson (Body.message "Access Denied"),
        store := st, req := req, handlerRuns := 0,
        log := (authenticateUser A st req Response.fresh).log, thrown := none } := by
  obtain ⟨h1, h2, h3⟩ := authenticateUser_of_rejected A st req Response.fresh h
  simp [router, he, h1, h2, h3]

/-- Dispatch of an authenticated request to a route that requires authentication: the
handler runs on the request that carries the principal. -/
theorem router_of_authenticated (A : AuthLib) (M : Models) (e : Endpoint) (st : Store)
    (req : Request) (u : User) (he : e.authRequired = true) (h : Authenticated A st req u) :
    router A M e st req =
      { asyncHandler (e.handler M) st { req with currentUser := some u } Response.fresh with
        log := ["Authentication successful for username: undefined"] ++
          (asyncHandler (e.handler M) st { req with currentUser := some u }
            Response.fresh).log } := by
  have ha := authenticateUser_of_authenticated A st req Response.fresh u h
  simp [router, he, ha]

theorem missing_header_rejected (A : AuthLib) (st : Store) (req : Request)
    (h : req.authorization = none) : Rejected A st req := by
  left
  simp [auth, h]

/-- What an authenticated request obtains from a guarded route other than `GET /users`
is what the wrapped handler computes from the request itself. -/
theorem router_authenticated_eq (A : AuthLib) (M : Models) (e : Endpoint) (st : Store)
    (req : Request) (u : User) (he : e.authRequired = true) (hne : e ≠ .listSelf)
    (h : Authenticated A st req u) :
    (router A M e st req).res = (asyncHandler (e.handler M) st req Response.fresh).res ∧
      (router A M e st req).store
        = (asyncHandler (e.handler M) st req Response.fresh).store ∧
      (router A M e st req).thrown
        = (asyncHandler (e.handler M) st req Response.fresh).thrown ∧
      (router A M e st req).handlerRuns = 1 := by
  rw [router_of_authenticated A M e st req u he h]
  have hcu := handler_currentUser M e hne st req Response.fresh (some u)
  unfold asyncHandler
  simp only [hcu]
  cases (e.handler M st req Response.fresh).thrown <;> exact ⟨rfl, rfl, rfl, rfl⟩

theorem literal_append_ne_empty (p s : String) (hp : p.length ≠ 0) : p ++ s ≠ "" := by
  intro h
  have hl := congrArg String.length h
  rw [String.length_append] at hl
  have h0 : ("" : String).length = 0 := rfl
  omega

/-! ## Lemmas on the store of the specification -/

theorem ownerErrors_of_dangling (V : Validation) (st : Store) (f : CourseFields)
    (hd : ∀ a ∈ st.users, a.id ≠ f.userId) : ownerErrors V st f = [V.ownerMissing] := by
  have hany : st.users.any (fun u => u.id == f.userId) = false := by
    rw [List.any_eq_false]
    intro a ha
    simpa using hd a ha
  simp [ownerErrors, hany]

theorem specCourseCreate_of_dangling (V : Validation) (st : Store) (f : CourseFields)
    (hd : ∀ a ∈ st.users, a.id ≠ f.userId) :
    specCourseCreate V st f = .error
      { name := "SequelizeValidationError", errors := V.courseErrors f ++ [V.ownerMissing] } := by
  unfold specCourseCreate
  rw [ownerErrors_of_dangling V st f hd]
  cases V.courseErrors f <;> rfl

theorem findByPk_id (st : Store) (k : Nat) (c : Course)
    (h : Course.findByPk st k = some c) : c.id = k := by
  unfold Course.findByPk at h
  simpa using List.find?_some h

/-- The row found by primary key after every row with that key took new values. -/
theorem find_after_update (cs : List Course) (k : Nat) (f : CourseFields) (c : Course)
    (h : cs.find? (fun x => x.id == k) = some c) :
    (cs.map (fun x =>
        if x.id == k then
          { x with title := f.title, description := f.description, userId := f.userId }
        else x)).find? (fun x => x.id == k)
      = some { id := k, title := f.title, description := f.description,
               userId := f.userId } := by
  induction cs with
  | nil => simp at h
  | cons a t ih =>
    simp only [List.map_cons, List.find?_cons] at h ⊢
    by_cases hk : a.id = k
    · have hb : (a.id == k) = true := by simpa using hk
      simp [hb, hk]
    · have hb : (a.id == k) = false := by simpa using hk
      simp only [hb, Bool.false_eq_true, if_false] at h ⊢
      exact ih h

/-- No row is found by primary key once the rows with that key are filtered out. -/
theorem find_after_destroy (cs : List Course) (k : Nat) :
    (cs.filter (fun x => x.id != k)).find? (fun x => x.id == k) = none := by
  rw [List.find?_eq_none]
  intro x hx
  have := (List.mem_filter.mp hx).2
  simpa using this

theorem specCourseUpdate_ok (V : Validation) (st : Store) (course : Course)
    (f : CourseFields) (st1 : Store) (h : specCourseUpdate V st course f = .ok st1) :
    st1 = { st with courses := st.courses.map (fun c =>
      if c.id == course.id then
        { c with title := f.title, description := f.description, userId := f.userId }
      else c) } := by
  unfold specCourseUpdate at h
  split at h
  · injection h with h
    exact h.symm
  · cases h

theorem specCourseCreate_ok (V : Validation) (st : Store) (f : CourseFields) (c : Course)
    (st1 : Store) (h : specCourseCreate V st f = .ok (c, st1)) :
    c = { id := freshId (st.courses.map (fun x => x.id)), title := f.title,
          description := f.description, userId := f.userId } ∧
      st1 = { st with courses := st.courses ++ [c] } := by
  unfold specCourseCreate at h
  split at h
  · injection h with h
    injection h with hc hs
    subst hc
    exact ⟨rfl, hs.symm⟩
  · cases h

/-! ## Lemmas on dispatch -/

/-- An authenticated `PUT /courses/:id` on a row that exists, when the store accepts. -/
theorem router_update_ok (A : AuthLib) (M : Models) (st : Store) (req : Request) (u : User)
    (course : Course) (st1 : Store) (ha : Authenticated A st req u)
    (hc : Course.findByPk st req.id = some course)
    (hu : M.courseUpdate st course (courseFields req) = .ok st1) :
    (router A M .updateCourse st req).res =
        { statusCode := some 204, location := none, json := none, ended := true } ∧
      (router A M .updateCourse st req).store = st1 ∧
      (router A M .updateCourse st req).thrown = none := by
  obtain ⟨h1, h2, h3, _⟩ := router_authenticated_eq A M .updateCourse st req u rfl
    (by decide) ha
  rw [h1, h2, h3]
  simp [asyncHandler, Endpoint.handler, putCourse, hc, hu]
  rfl

/-- An authenticated `DELETE /courses/:id` on a row that exists, when the store
accepts. -/
theorem router_delete_ok (A : AuthLib) (M : Models) (st : Store) (req : Request) (u : User)
    (course : Course) (st1 : Store) (ha : Authenticated A st req u)
    (hc : Course.findByPk st req.id = some course)
    (hd : M.courseDestroy st course = .ok st1) :
    (router A M .removeCourse st req).res =
        { statusCode := some 204, location := none, json := none, ended := true } ∧
      (router A M .removeCourse st req).store = st1 ∧
      (router A M .removeCourse st req).thrown = none := by
  obtain ⟨h1, h2, h3, _⟩ := router_authenticated_eq A M .removeCourse st req u rfl
    (by decide) ha
  rw [h1, h2, h3]
  simp [asyncHandler, Endpoint.handler, deleteCourse, hc, hd]
  rfl

/-- The handlers other than `GET /users` read only `req.params.id` and `req.body`. -/
theorem handler_congr (M : Models) (e : Endpoint) (he : e ≠ .listSelf) (st : Store)
    (req1 req2 : Request) (res : Response) (hid : req2.id = req1.id)
    (hb : req2.body = req1.body) :
    e.handler M st req2 res = e.handler M st req1 res := by
  cases e <;> first
    | exact absurd rfl he
    | simp [Endpoint.handler, postUsers, getCourses, getCourseById, postCourses, putCourse,
        deleteCourse, courseFields, hid, hb]

theorem catchBlock_status (st : Store) (res : Response) (error : JsError) :
    (catchBlock st res error).thrown = none →
      (catchBlock st res error).res.statusCode = some 400 := by
  unfold catchBlock
  split
  · intro _; rfl
  · intro h; cases h

/-- A handler that returns normally has set one of the statuses 200, 201, 204, 400. -/
theorem handler_status (M : Models) (e : Endpoint) (st : Store) (req : Request)
    (res : Response) (h : (e.handler M st req res).thrown = none) :
    (e.handler M st req res).res.statusCode = some 200 ∨
      (e.handler M st req res).res.statusCode = some 201 ∨
      (e.handler M st req res).res.statusCode = some 204 ∨
      (e.handler M st req res).res.statusCode = some 400 := by
  cases e
  · simp only [Endpoint.handler, getUsers] at h ⊢
    split
    · left; rfl
    · rename_i hcu
      rw [hcu] at h
      cases h
  · simp only [Endpoint.handler, postUsers] at h ⊢
    split
    · right; left; rfl
    · rename_i err herr
      rw [herr] at h
      exact Or.inr (Or.inr (Or.inr (catchBlock_status st res err h)))
  · left; rfl
  · left; rfl
  · simp only [Endpoint.handler, postCourses] at h ⊢
    split
    · right; left; rfl
    · rename_i err herr
      rw [herr] at h
      exact Or.inr (Or.inr (Or.inr (catchBlock_status st res err h)))
  · simp only [Endpoint.handler, putCourse] at h ⊢
    split
    · rename_i course hcourse
      rw [hcourse] at h
      simp only at h
      split
      · right; right; left; rfl
      · rename_i err herr
        rw [herr] at h
        exact Or.inr (Or.inr (Or.inr (catchBlock_status st res err h)))
    · rename_i hcourse
      rw [hcourse] at h
      exact Or.inr (Or.inr (Or.inr (catchBlock_status st res typeError h)))
  · simp only [Endpoint.handler, deleteCourse] at h ⊢
    split
    · rename_i course hcourse
      rw [hcourse] at h
      simp only at h
      split
      · right; right; left; rfl
      · rename_i err herr
        rw [herr] at h
        cases h
    · rename_i hcourse
      rw [hcourse] at h
      cases h

/-- The wrapped handler ends with one of the statuses 200, 201, 204, 400, 500. -/
theorem asyncHandler_status (M : Models) (e : Endpoint) (st : Store) (req : Request)
    (res : Response) :
    (asyncHandler (e.handler M) st req res).res.statusCode ∈
      [some 200, some 201, some 204, some 400, some 500] := by
  cases ht : (e.handler M st req res).thrown with
  | none =>
    have hs := handler_status M e st req res ht
    simp only [asyncHandler, ht, List.mem_cons]
    rcases hs with hs | hs | hs | hs <;> simp [hs]
  | some err => simp [asyncHandler, ht, errorFallback, Response.status, Response.finish]

/-- When the verifier does not call `next`, it has written the denial. -/
theorem authenticateUser_denied (A : AuthLib) (st : Store) (req : Request) (res : Response)
    (hn : (authenticateUser A st req res).nextCalls = 0) :
    (authenticateUser A st req res).res
      = (res.status 401).sendJson (Body.message "Access Denied") := by
  unfold authenticateUser at hn ⊢
  by_cases ht : truthy (authenticateUser.check A st req).1 = true
  · simp only [ht, if_true]
  · simp only [ht, if_false] at hn
    cases hn

/-- Every dispatch ends with one of the statuses 200, 201, 204, 400, 401, 500. -/
theorem router_status (A : AuthLib) (M : Models) (e : Endpoint) (st : Store)
    (req : Request) :
    (router A M e st req).res.statusCode ∈
      [some 200, some 201, some 204, some 400, some 401, some 500] := by
  unfold router
  by_cases he : e.authRequired = true
  · simp only [he, if_true]
    by_cases hn : (authenticateUser A st req Response.fresh).nextCalls = 0
    · simp only [hn, if_true, authenticateUser_denied A st req Response.fresh hn]
      simp [Response.status, Response.sendJson]
    · simp only [hn, if_false]
      have := asyncHandler_status M e st
        (authenticateUser A st req Response.fresh).req
        (authenticateUser A st req Response.fresh).res
      simp only [List.mem_cons] at this ⊢
      tauto
  · simp only [he]
    have := asyncHandler_status M e st req Response.fresh
    simp only [List.mem_cons] at this ⊢
    tauto

/-- An authenticated `POST /courses` when the store accepts. -/
theorem router_create_ok (A : AuthLib) (M : Models) (st : Store) (req : Request)
    (u : User) (course : Course) (st1 : Store) (ha : Authenticated A st req u)
    (h : M.courseCreate st (courseFields req) = .ok (course, st1)) :
    (router A M .createCourse st req).res =
        { statusCode := some 201, location := some ("courses/" ++ toString course.id),
          json := none, ended := true } ∧
      (router A M .createCourse st req).store = st1 := by
  obtain ⟨h1, h2, _, _⟩ := router_authenticated_eq A M .createCourse st req u rfl
    (by decide) ha
  rw [h1, h2]
  constructor
  · simp [asyncHandler, Endpoint.handler, postCourses, h]
    rfl
  · simp [asyncHandler, Endpoint.handler, postCourses, h]

/-! ## The credential verifier -/

/-- C1: whenever the header is missing or malformed, or no account has the parsed email
address, or the hash comparison on the account found is false, `authenticateUser`
answers 401 with the body `message: Access Denied`, does not call `next` and leaves the
request (hence `currentUser`) as it was; the response is the same for every rejected
request, whatever the reason. -/
theorem authenticateUser_rejects_uniformly (A : AuthLib) (st : Store) (req : Request)
    (res : Response) (h : Rejected A st req) :
    (authenticateUser A st req res).res.statusCode = some 401 ∧
      (authenticateUser A st req res).res.json = some (Body.message "Access Denied") ∧
      (authenticateUser A st req res).res.ended = true ∧
      (authenticateUser A st req res).nextCalls = 0 ∧
      (authenticateUser A st req res).req = req ∧
      (authenticateUser A st req res).req.currentUser = req.currentUser ∧
      ∀ (st2 : Store) (req2 : Request), Rejected A st2 req2 →
        (authenticateUser A st2 req2 res).res = (authenticateUser A st req res).res := by
  obtain ⟨h1, h2, h3⟩ := authenticateUser_of_rejected A st req res h
  refine ⟨?_, ?_, ?_, h2, h3, ?_, ?_⟩
  · rw [h1]; rfl
  · rw [h1]; rfl
  · rw [h1]; rfl
  · rw [h3]
  · intro st2 req2 hr
    rw [h1, (authenticateUser_of_rejected A st2 req2 res hr).1]

/-- Instance of C1: a request without header, one for an unknown address and one with a
wrong secret are all rejected, and they receive the same response. -/
theorem authenticateUser_rejects_uniformly_witness :
    Rejected demoLib demoStore anonymous ∧
      Rejected demoLib { demoStore with users := [ann] } asJo ∧
      Rejected demoLib { demoStore with users := [{ jo with password := "h:other" }] } asJo ∧
      (authenticateUser demoLib demoStore anonymous Response.fresh).res.statusCode
        = some 401 ∧
      (authenticateUser demoLib { demoStore with users := [ann] } asJo Response.fresh).res
        = (authenticateUser demoLib demoStore anonymous Response.fresh).res ∧
      (authenticateUser demoLib { demoStore with users := [{ jo with password := "h:other" }] }
          asJo Response.fresh).res
        = (authenticateUser demoLib demoStore anonymous Response.fresh).res :=
  have h1 : Rejected demoLib demoStore anonymous := Or.inl (by decide)
  have h2 : Rejected demoLib { demoStore with users := [ann] } asJo :=
    Or.inr (Or.inl ⟨⟨"jo@example.com", "secret1"⟩, by decide, by decide⟩)
  have h3 : Rejected demoLib { demoStore with users := [{ jo with password := "h:other" }] }
      asJo :=
    Or.inr (Or.inr ⟨⟨"jo@example.com", "secret1"⟩, { jo with password := "h:other" },
      by decide, by decide, by decide⟩)
  ⟨h1, h2, h3,
    (authenticateUser_rejects_uniformly demoLib demoStore anonymous Response.fresh h1).1,
    (authenticateUser_rejects_uniformly demoLib demoStore anonymous Response.fresh h1).2.2.2.2.2.2
      _ _ h2,
    (authenticateUser_rejects_uniformly demoLib demoStore anonymous Response.fresh h1).2.2.2.2.2.2
      _ _ h3⟩

/-- C2: when the header parses to `(name, pass)`, the lookup by `name` finds an account
and the hash comparison of `pass` against its stored hash is true, `authenticateUser`
sets `req.currentUser` to that account (a stored account with that email address, same
id), calls `next` exactly once and leaves the response untouched. -/
theorem authenticateUser_accepts (A : AuthLib) (st : Store) (req : Request) (res : Response)
    (c : Credentials) (u : User) (hc : auth A req = some c)
    (hu : User.findOne st c.name = some u)
    (hp : A.compareSync c.pass u.password = true) :
    (authenticateUser A st req res).req.currentUser = some u ∧
      (authenticateUser A st req res).req.currentUser.map (fun p => p.id) = some u.id ∧
      u ∈ st.users ∧ u.emailAddress = c.name ∧
      (authenticateUser A st req res).nextCalls = 1 ∧
      (authenticateUser A st req res).res = res ∧
      (res.statusCode ≠ some 401 →
        (authenticateUser A st req res).res.statusCode ≠ some 401) := by
  have ha := authenticateUser_of_authenticated A st req res u ⟨c, hc, hu, hp⟩
  have hm := findOne_some_mem st c.name u hu
  rw [ha]
  exact ⟨rfl, rfl, hm.1, hm.2, rfl, rfl, fun h => h⟩

/-- Instance of C2: Jo presents the right secret. -/
theorem authenticateUser_accepts_witness :
    (authenticateUser demoLib demoStore asJo Response.fresh).req.currentUser = some jo ∧
      (authenticateUser demoLib demoStore asJo Response.fresh).nextCalls = 1 ∧
      (authenticateUser demoLib demoStore asJo Response.fresh).res = Response.fresh :=
  have h := authenticateUser_accepts demoLib demoStore asJo Response.fresh
    ⟨"jo@example.com", "secret1"⟩ jo (by decide) (by decide) (by decide)
  ⟨h.1, h.2.2.2.2.1, h.2.2.2.2.2.1⟩

/-- C3: on `GET /users`, `POST /courses`, `PUT /courses/:id` and `DELETE /courses/:id`,
a request without `Authorization` header, and likewise any request the verifier rejects,
receives exactly 401 with the body `message: Access Denied`; the route handler does not
run and the store is unchanged. -/
theorem auth_precedes_handler (A : AuthLib) (M : Models) (e : Endpoint) (st : Store)
    (req : Request)
    (he : e = .listSelf ∨ e = .createCourse ∨ e = .updateCourse ∨ e = .removeCourse)
    (h : req.authorization = none ∨ Rejected A st req) :
    (router A M e st req).res =
        { statusCode := some 401, location := none,
          json := some (Body.message "Access Denied"), ended := true } ∧
      (router A M e st req).handlerRuns = 0 ∧
      (router A M e st req).thrown = none ∧
      (router A M e st req).store = st ∧
      (router A M e st req).store.courses = st.courses := by
  have hr : Rejected A st req := h.elim (missing_header_rejected A st req) id
  have ha : e.authRequired = true := by
    rcases he with rfl | rfl | rfl | rfl <;> rfl
  rw [router_of_rejected A M e st req ha hr]
  exact ⟨rfl, rfl, rfl, rfl, rfl⟩

/-- Instance of C3: the four guarded routes on a request without header, against a
store that would accept the writes. -/
theorem auth_precedes_handler_witness :
    (router demoLib (specModels lenient) .listSelf demoStore anonymous).res.statusCode
        = some 401 ∧
      (router demoLib (specModels lenient) .createCourse demoStore anonymous).store
        = demoStore ∧
      (router demoLib (specModels lenient) .updateCourse demoStore anonymous).store
        = demoStore ∧
      (router demoLib (specModels lenient) .removeCourse demoStore anonymous).handlerRuns
        = 0 :=
  ⟨congrArg Response.statusCode
      (auth_precedes_handler demoLib (specModels lenient) .listSelf demoStore anonymous
        (Or.inl rfl) (Or.inl rfl)).1,
    (auth_precedes_handler demoLib (specModels lenient) .createCourse demoStore anonymous
      (Or.inr (Or.inl rfl)) (Or.inl rfl)).2.2.2.1,
    (auth_precedes_handler demoLib (specModels lenient) .updateCourse demoStore anonymous
      (Or.inr (Or.inr (Or.inl rfl))) (Or.inl rfl)).2.2.2.1,
    (auth_precedes_handler demoLib (specModels lenient) .removeCourse demoStore anonymous
      (Or.inr (Or.inr (Or.inr rfl))) (Or.inl rfl)).2.1⟩

/-! ## Translation of store failures -/

/-- C4: in create account, create course and update course, a store failure named
`SequelizeValidationError` or `SequelizeUniqueConstraintError` with per-field errors `es`
is answered with status 400 and body `errors: L`, where `L` is the list of the messages
of `es`: same length, same order (`L[i] = es[i].message`), non-empty when `es` is; no
error leaves the handler. -/
theorem validation_failure_translation (M : Models) (st : Store) (req : Request)
    (res : Response) (error : JsError) (e : Endpoint)
    (hf : StoreFails M st req error e) (hk : ValidationKind error) :
    ∃ L : List String,
      (e.handler M st req res).res.statusCode = some 400 ∧
      (e.handler M st req res).res.json = some (Body.errors L) ∧
      (e.handler M st req res).thrown = none ∧
      (asyncHandler (e.handler M) st req res).res = (e.handler M st req res).res ∧
      L = error.errors.map (fun err => err.message) ∧
      L.length = error.errors.length ∧
      (∀ (i : Nat) (hi : i < error.errors.length), L[i]? = some (error.errors[i]).message) ∧
      (error.errors ≠ [] → L ≠ []) := by
  have hh := handler_of_storeFails M st req res error e hf
  have hc := catchBlock_of_kind st res error hk
  refine ⟨error.errors.map (fun err => err.message), ?_, ?_, ?_, ?_, rfl, ?_, ?_, ?_⟩
  · rw [hh, hc]; rfl
  · rw [hh, hc]; rfl
  · rw [hh, hc]
  · simp [asyncHandler, hh, hc]
  · simp
  · intro i hi
    simp [List.getElem?_map, List.getElem?_eq_getElem hi]
  · intro hne
    simpa using hne

/-- Instance of C4: a duplicate email address on the three routes. -/
theorem validation_failure_translation_witness :
    (postUsers (failing duplicateEmail) demoStore anonymous Response.fresh).res.json
        = some (Body.errors ["Email address already in use", "second"]) ∧
      (postCourses (failing duplicateEmail) demoStore anonymous Response.fresh).res.statusCode
        = some 400 ∧
      (putCourse (failing duplicateEmail) demoStore anonymous Response.fresh).res.statusCode
        = some 400 :=
  have hk : ValidationKind duplicateEmail := Or.inr rfl
  have h1 := validation_failure_translation (failing duplicateEmail) demoStore anonymous
    Response.fresh duplicateEmail .createAccount rfl hk
  have h2 := validation_failure_translation (failing duplicateEmail) demoStore anonymous
    Response.fresh duplicateEmail .createCourse rfl hk
  have h3 := validation_failure_translation (failing duplicateEmail) demoStore anonymous
    Response.fresh duplicateEmail .updateCourse ⟨algebra, by decide, rfl⟩ hk
  ⟨by obtain ⟨L, _, hj, _, _, hL, _⟩ := h1; rw [hL] at hj; exact hj,
    by obtain ⟨L, hs, _⟩ := h2; exact hs,
    by obtain ⟨L, hs, _⟩ := h3; exact hs⟩

/-- C5: in create account, create course and update course, a store failure of any
other kind is not answered by the handler (the response is left as it was: no status,
no body) and the very same error leaves the handler; the process-wide fallback then
answers 500, also through the router, for an unguarded route or an authenticated
request. -/
theorem other_failure_propagates (M : Models) (st : Store) (req : Request)
    (res : Response) (error : JsError) (e : Endpoint)
    (hf : StoreFails M st req error e) (hk : ¬ ValidationKind error) :
    (e.handler M st req res).res = res ∧
      (e.handler M st req res).thrown = some error ∧
      (e.handler M st req res).store = st ∧
      (asyncHandler (e.handler M) st req res).thrown = some error ∧
      (asyncHandler (e.handler M) st req res).res.statusCode = some 500 ∧
      (asyncHandler (e.handler M) st req res).res.json = res.json ∧
      ∀ A : AuthLib, (e.authRequired = false ∨ ∃ u, Authenticated A st req u) →
        (router A M e st req).thrown = some error ∧
        (router A M e st req).res.statusCode = some 500 ∧
        (router A M e st req).res.json = none := by
  have hh := handler_of_storeFails M st req res error e hf
  have hc := catchBlock_of_other st res error hk
  refine ⟨?_, ?_, ?_, ?_, ?_, ?_, ?_⟩
  · rw [hh, hc]
  · rw [hh, hc]
  · rw [hh, hc]
  · simp [asyncHandler, hh, hc]
  · simp [asyncHandler, hh, hc, errorFallback, Response.status, Response.finish]
  · simp [asyncHandler, hh, hc, errorFallback, Response.status, Response.finish]
  · intro A ha
    have hne : e ≠ .listSelf := by
      intro h0
      rw [h0] at hf
      exact hf
    have hf0 := handler_of_storeFails M st req Response.fresh error e hf
    have hc0 := catchBlock_of_other st Response.fresh error hk
    cases hauth : e.authRequired with
    | false =>
      simp [router, hauth, asyncHandler, hf0, hc0]
      simp [errorFallback, Response.status, Response.finish, Response.fresh]
    | true =>
      obtain ⟨u, hu⟩ := ha.resolve_left (by simp [hauth])
      rw [router_of_authenticated A M e st req u hauth hu]
      have hcu := handler_currentUser M e hne st req Response.fresh (some u)
      simp [asyncHandler, hcu, hf0, hc0]
      simp [errorFallback, Response.status, Response.finish, Response.fresh]

/-- Instance of C5: a lost connection on the three routes. -/
theorem other_failure_propagates_witness :
    (postUsers (failing connectionLost) demoStore anonymous Response.fresh).res
        = Response.fresh ∧
      (postCourses (failing connectionLost) demoStore anonymous Response.fresh).thrown
        = some connectionLost ∧
      (router demoLib (failing connectionLost) .updateCourse demoStore asJo).res.statusCode
        = some 500 :=
  have hk : ¬ ValidationKind connectionLost := by
    unfold ValidationKind connectionLost
    decide
  ⟨(other_failure_propagates (failing connectionLost) demoStore anonymous Response.fresh
      connectionLost .createAccount rfl hk).1,
    (other_failure_propagates (failing connectionLost) demoStore anonymous Response.fresh
      connectionLost .createCourse rfl hk).2.1,
    ((other_failure_propagates (failing connectionLost) demoStore asJo Response.fresh
      connectionLost .updateCourse ⟨algebra, by decide, rfl⟩ hk).2.2.2.2.2.2 demoLib
        (Or.inr ⟨jo, ⟨"jo@example.com", "secret1"⟩, by decide, by decide, by decide⟩)).2.1⟩

/-! ## Creation -/

/-- C6 (on the store as the specification describes it): an authenticated
`POST /courses` whose `userId` is the id of no account is answered 400 with a non-empty
`errors` body, and the store, so the list of courses, is unchanged. -/
theorem dangling_owner_is_400 (A : AuthLib) (V : Validation) (st : Store) (req : Request)
    (u : User) (ha : Authenticated A st req u)
    (hd : ∀ a ∈ st.users, a.id ≠ req.body.userId) :
    (router A (specModels V) .createCourse st req).res.statusCode = some 400 ∧
      (∃ L : List String, L ≠ [] ∧
        (router A (specModels V) .createCourse st req).res.json = some (Body.errors L)) ∧
      (router A (specModels V) .createCourse st req).thrown = none ∧
      (router A (specModels V) .createCourse st req).store = st ∧
      (router A (specModels V) .createCourse st req).store.courses = st.courses := by
  have hf : StoreFails (specModels V) st req
      { name := "SequelizeValidationError",
        errors := V.courseErrors (courseFields req) ++ [V.ownerMissing] } .createCourse :=
    specCourseCreate_of_dangling V st (courseFields req) hd
  have hh := handler_of_storeFails (specModels V) st req Response.fresh _ _ hf
  have hc := catchBlock_of_kind st Response.fresh _ (Or.inl rfl : ValidationKind
    { name := "SequelizeValidationError",
      errors := V.courseErrors (courseFields req) ++ [V.ownerMissing] })
  obtain ⟨h1, h2, h3, _⟩ := router_authenticated_eq A (specModels V) .createCourse st req u
    rfl (by decide) ha
  rw [h1, h2, h3]
  have ho : asyncHandler (Endpoint.handler (specModels V) .createCourse) st req Response.fresh
      = { res := (Response.fresh.status 400).sendJson (Body.errors
            ((V.courseErrors (courseFields req) ++ [V.ownerMissing]).map
              (fun err => err.message))),
          store := st, req := req, handlerRuns := 1,
          log := ["ERROR:  " ++ "SequelizeValidationError"], thrown := none } := by
    simp only [asyncHandler, hh, hc]
  rw [ho]
  refine ⟨rfl, ⟨_, ?_, rfl⟩, rfl, rfl, rfl⟩
  simp

/-- Instance of C6: Ann creates a course for the account id 5, which does not exist. -/
theorem dangling_owner_is_400_witness :
    (router demoLib (specModels lenient) .createCourse demoStore
        { asAnn with body := { demoBody with userId := 5 } }).res.statusCode = some 400 ∧
      (router demoLib (specModels lenient) .createCourse demoStore
        { asAnn with body := { demoBody with userId := 5 } }).store = demoStore :=
  have h := dangling_owner_is_400 demoLib lenient demoStore
    { asAnn with body := { demoBody with userId := 5 } } ann
    ⟨⟨"ann@example.com", "secret2"⟩, by decide, by decide, by decide⟩ (by decide)
  ⟨h.1, h.2.2.2.1⟩

/-- C7: a `POST /users` whose body the store accepts is answered 201 with no body and
`Location: /`; an authenticated `POST /courses` whose fields the store accepts is
answered 201 with no body and `Location: courses/` followed by the id of the course just
created; the header is non-empty in both cases. -/
theorem successful_creation (A : AuthLib) (M : Models) (st : Store) (req : Request) :
    (∀ st1 : Store, M.userCreate st req.body = .ok st1 →
      (router A M .createAccount st req).res =
        { statusCode := some 201, location := some "/", json := none, ended := true } ∧
      (router A M .createAccount st req).res.location ≠ some "" ∧
      (router A M .createAccount st req).store = st1) ∧
    (∀ (u : User) (course : Course) (st1 : Store), Authenticated A st req u →
      M.courseCreate st (courseFields req) = .ok (course, st1) →
      (router A M .createCourse st req).res =
        { statusCode := some 201, location := some ("courses/" ++ toString course.id),
          json := none, ended := true } ∧
      (router A M .createCourse st req).res.location ≠ some "" ∧
      (router A M .createCourse st req).store = st1) := by
  constructor
  · intro st1 h
    have hr : (router A M .createAccount st req).res =
        { statusCode := some 201, location := some "/", json := none, ended := true } := by
      simp [router, Endpoint.authRequired, asyncHandler, Endpoint.handler, postUsers, h]
      rfl
    refine ⟨hr, ?_, ?_⟩
    · rw [hr]
      decide
    · simp [router, Endpoint.authRequired, asyncHandler, Endpoint.handler, postUsers, h]
  · intro u course st1 ha h
    obtain ⟨h1, h2⟩ := router_create_ok A M st req u course st1 ha h
    refine ⟨h1, ?_, h2⟩
    rw [h1]
    intro hl
    exact literal_append_ne_empty "courses/" (toString course.id) (by decide)
      (Option.some.inj hl)

/-- Instance of C7: a new account for Jo in a store that only knows Ann, and a course
created by Jo. -/
theorem successful_creation_witness :
    (router demoLib (specModels lenient) .createAccount { demoStore with users := [ann] }
        anonymous).res.location = some "/" ∧
      (router demoLib (specModels lenient) .createCourse demoStore asJo).res.location
        = some "courses/8" :=
  ⟨congrArg Response.location
      ((successful_creation demoLib (specModels lenient) { demoStore with users := [ann] }
        anonymous).1 _ rfl).1,
    congrArg Response.location
      ((successful_creation demoLib (specModels lenient) demoStore asJo).2 jo
        { id := 8, title := "Logic", description := "Proofs", userId := 2 } _
        ⟨⟨"jo@example.com", "secret1"⟩, by decide, by decide, by decide⟩ rfl).1⟩

/-! ## Update, delete and the missing ownership check -/

/-- C8 (on the store as the specification describes it): for an authenticated
principal and an id that resolves to a course, `PUT /courses/:id` with a body the store
accepts is answered 204 with an empty body, and a later `GET /courses/:id` returns 200
with the course of that id carrying the title, description and userId of the body;
`DELETE /courses/:id` is answered 204 with an empty body. -/
theorem update_and_delete_by_valid_id (A : AuthLib) (V : Validation) (st : Store)
    (req : Request) (u : User) (course : Course) (ha : Authenticated A st req u)
    (hc : Course.findByPk st req.id = some course) :
    (∀ st1 : Store, specCourseUpdate V st course (courseFields req) = .ok st1 →
      (router A (specModels V) .updateCourse st req).res =
        { statusCode := some 204, location := none, json := none, ended := true } ∧
      ∀ (A2 : AuthLib) (req2 : Request), req2.id = req.id →
        ∃ owner : Option User,
          (router A2 (specModels V) .getCourse
              (router A (specModels V) .updateCourse st req).store req2).res =
            { statusCode := some 200, location := none,
              json := some (Body.course (some
                ({ id := req.id, title := req.body.title,
                   description := req.body.description, userId := req.body.userId },
                 owner))),
              ended := true }) ∧
    (router A (specModels V) .removeCourse st req).res =
      { statusCode := some 204, location := none, json := none, ended := true } := by
  constructor
  · intro st1 hu
    obtain ⟨h1, h2, _⟩ := router_update_ok A (specModels V) st req u course st1 ha hc hu
    refine ⟨h1, ?_⟩
    intro A2 req2 hid
    have hst := specCourseUpdate_ok V st course (courseFields req) st1 hu
    have hk := findByPk_id st req.id course hc
    have hfind : Course.findByPk st1 req2.id
        = some { id := req.id, title := req.body.title,
                 description := req.body.description, userId := req.body.userId } := by
      rw [hst, hid]
      unfold Course.findByPk at hc ⊢
      rw [hk]
      exact find_after_update st.courses req.id (courseFields req) course hc
    rw [h2]
    refine ⟨Course.owner st1
      { id := req.id, title := req.body.title, description := req.body.description,
        userId := req.body.userId }, ?_⟩
    simp [router, Endpoint.authRequired, asyncHandler, Endpoint.handler, getCourseById,
      hfind]
    rfl
  · exact (router_delete_ok A (specModels V) st req u course _ ha hc rfl).1

/-- Instance of C8: Ann rewrites and deletes the course 7. -/
theorem update_and_delete_by_valid_id_witness :
    (router demoLib (specModels lenient) .updateCourse demoStore asAnn).res.statusCode
        = some 204 ∧
      (router demoLib (specModels lenient) .removeCourse demoStore asAnn).res.statusCode
        = some 204 :=
  have h := update_and_delete_by_valid_id demoLib lenient demoStore asAnn ann algebra
    ⟨⟨"ann@example.com", "secret2"⟩, by decide, by decide, by decide⟩ (by decide)
  ⟨congrArg Response.statusCode (h.1 _ rfl).1, congrArg Response.statusCode h.2⟩

/-- C9: create, update and delete course do not depend on who authenticated.  Two
requests with the same id and body that carry the valid credentials of the accounts
`u1` and `u2` obtain, from any store implementation, the same response, the same
resulting store (so the same courses) and the same error, if any.  On the store as the
specification describes it, whoever the principal is (the owner or not), an accepted
update is answered 204 and the row then carries the fields of the body, a delete is
answered 204 and the id no longer resolves, and a created course is stored with the
`userId` of the body. -/
theorem no_ownership_check (A : AuthLib) (M : Models) (V : Validation) (st : Store)
    (req1 req2 : Request) (u1 u2 : User) (e : Endpoint)
    (he : e = .createCourse ∨ e = .updateCourse ∨ e = .removeCourse)
    (h1 : Authenticated A st req1 u1) (h2 : Authenticated A st req2 u2)
    (hid : req2.id = req1.id) (hb : req2.body = req1.body) :
    ((router A M e st req1).res = (router A M e st req2).res ∧
      (router A M e st req1).store = (router A M e st req2).store ∧
      (router A M e st req1).store.courses = (router A M e st req2).store.courses ∧
      (router A M e st req1).thrown = (router A M e st req2).thrown) ∧
    (∀ course : Course, Course.findByPk st req1.id = some course →
      (∀ st1 : Store, specCourseUpdate V st course (courseFields req1) = .ok st1 →
        (router A (specModels V) .updateCourse st req1).res.statusCode = some 204 ∧
        Course.findByPk (router A (specModels V) .updateCourse st req1).store req1.id
          = some { id := req1.id, title := req1.body.title,
                   description := req1.body.description, userId := req1.body.userId }) ∧
      (router A (specModels V) .removeCourse st req1).res.statusCode = some 204 ∧
      Course.findByPk (router A (specModels V) .removeCourse st req1).store req1.id
        = none) ∧
    (∀ (c : Course) (st1 : Store),
      specCourseCreate V st (courseFields req1) = .ok (c, st1) →
      (router A (specModels V) .createCourse st req1).res.statusCode = some 201 ∧
      (router A (specModels V) .createCourse st req1).store = st1 ∧
      c ∈ st1.courses ∧ c.userId = req1.body.userId) := by
  have hauth : e.authRequired = true := by
    rcases he with rfl | rfl | rfl <;> rfl
  have hne : e ≠ .listSelf := by
    rcases he with rfl | rfl | rfl <;> decide
  refine ⟨?_, ?_, ?_⟩
  · obtain ⟨a1, a2, a3, _⟩ := router_authenticated_eq A M e st req1 u1 hauth hne h1
    obtain ⟨b1, b2, b3, _⟩ := router_authenticated_eq A M e st req2 u2 hauth hne h2
    have hh := handler_congr M e hne st req1 req2 Response.fresh hid hb
    have ho : (asyncHandler (e.handler M) st req2 Response.fresh).res
          = (asyncHandler (e.handler M) st req1 Response.fresh).res ∧
        (asyncHandler (e.handler M) st req2 Response.fresh).store
          = (asyncHandler (e.handler M) st req1 Response.fresh).store ∧
        (asyncHandler (e.handler M) st req2 Response.fresh).thrown
          = (asyncHandler (e.handler M) st req1 Response.fresh).thrown := by
      unfold asyncHandler
      simp only [hh]
      cases (e.handler M st req1 Response.fresh).thrown <;> exact ⟨rfl, rfl, rfl⟩
    rw [a1, a2, a3, b1, b2, b3, ho.1, ho.2.1, ho.2.2]
    exact ⟨rfl, rfl, rfl, rfl⟩
  · intro course hc
    have hk := findByPk_id st req1.id course hc
    refine ⟨?_, ?_, ?_⟩
    · intro st1 hu
      obtain ⟨r1, r2, _⟩ :=
        router_update_ok A (specModels V) st req1 u1 course st1 h1 hc hu
      refine ⟨by rw [r1], ?_⟩
      rw [r2, specCourseUpdate_ok V st course (courseFields req1) st1 hu]
      unfold Course.findByPk at hc ⊢
      rw [hk]
      exact find_after_update st.courses req1.id (courseFields req1) course hc
    · rw [(router_delete_ok A (specModels V) st req1 u1 course _ h1 hc rfl).1]
    · rw [(router_delete_ok A (specModels V) st req1 u1 course _ h1 hc rfl).2.1]
      unfold Course.findByPk
      rw [hk]
      exact find_after_destroy st.courses req1.id
  · intro c st1 hcr
    obtain ⟨hcv, hst⟩ := specCourseCreate_ok V st (courseFields req1) c st1 hcr
    obtain ⟨r1, r2⟩ := router_create_ok A (specModels V) st req1 u1 c st1 h1 hcr
    refine ⟨by rw [r1], r2, ?_, ?_⟩
    · rw [hst]
      simp
    · rw [hcv]
      rfl

/-- Instance of C9: Jo owns the course 7; Ann updates it, deletes it, and creates a
course owned by the account of the body, exactly as Jo would. -/
theorem no_ownership_check_witness :
    ann.id ≠ algebra.userId ∧
      (router demoLib (specModels lenient) .updateCourse demoStore asAnn).res
        = (router demoLib (specModels lenient) .updateCourse demoStore asJo).res ∧
      (router demoLib (specModels lenient) .removeCourse demoStore asAnn).store.courses
        = (router demoLib (specModels lenient) .removeCourse demoStore asJo).store.courses ∧
      (router demoLib (specModels lenient) .removeCourse demoStore asAnn).res.statusCode
        = some 204 ∧
      (router demoLib (specModels lenient) .createCourse demoStore asJo).res.statusCode
        = some 201 :=
  have hJo : Authenticated demoLib demoStore asJo jo :=
    ⟨⟨"jo@example.com", "secret1"⟩, by decide, by decide, by decide⟩
  have hAnn : Authenticated demoLib demoStore asAnn ann :=
    ⟨⟨"ann@example.com", "secret2"⟩, by decide, by decide, by decide⟩
  ⟨by decide,
    (no_ownership_check demoLib (specModels lenient) lenient demoStore asAnn asJo ann jo
      .updateCourse (Or.inr (Or.inl rfl)) hAnn hJo rfl rfl).1.1,
    (no_ownership_check demoLib (specModels lenient) lenient demoStore asAnn asJo ann jo
      .removeCourse (Or.inr (Or.inr rfl)) hAnn hJo rfl rfl).1.2.2.1,
    ((no_ownership_check demoLib (specModels lenient) lenient demoStore asAnn asJo ann jo
      .removeCourse (Or.inr (Or.inr rfl)) hAnn hJo rfl rfl).2.1 algebra (by decide)).2.1,
    ((no_ownership_check demoLib (specModels lenient) lenient demoStore asJo asAnn jo ann
      .createCourse (Or.inl rfl) hJo hAnn rfl rfl).2.2
        { id := 8, title := "Logic", description := "Proofs", userId := 2 } _ rfl).1⟩

/-! ## Unresolved ids -/

/-- C10: no handler answers 404.  For an id that resolves to no course,
`GET /courses/:id` answers 200 with the payload `null`; an authenticated
`PUT /courses/:id` or `DELETE /courses/:id` writes no response of its own (neither 204
nor 400): the call on the missing row raises a `TypeError`, which is neither of the two
translated kinds, leaves the handler and reaches the fallback, and the store is
unchanged. -/
theorem not_found_policy (A : AuthLib) (M : Models) (st : Store) (req : Request)
    (hn : Course.findByPk st req.id = none) :
    (∀ (e : Endpoint) (st0 : Store) (req0 : Request),
      (router A M e st0 req0).res.statusCode ≠ some 404) ∧
    (router A M .getCourse st req).res =
      { statusCode := some 200, location := none, json := some (Body.course none),
        ended := true } ∧
    (∀ res : Response,
      (putCourse M st req res).res = res ∧ (putCourse M st req res).thrown = some typeError ∧
      (deleteCourse M st req res).res = res ∧
      (deleteCourse M st req res).thrown = some typeError) ∧
    ¬ ValidationKind typeError ∧
    (∀ (u : User) (e : Endpoint), Authenticated A st req u →
      e = .updateCourse ∨ e = .removeCourse →
      (router A M e st req).thrown = some typeError ∧
      (router A M e st req).res.statusCode ≠ some 204 ∧
      (router A M e st req).res.statusCode ≠ some 400 ∧
      (router A M e st req).res.json = none ∧
      (router A M e st req).store = st) := by
  have hput : ∀ res : Response, putCourse M st req res
      = { res := res, store := st, log := ["ERROR:  " ++ typeError.name],
          thrown := some typeError } := by
    intro res
    simp only [putCourse, hn]
    exact catchBlock_of_other st res typeError typeError_not_kind
  have hdel : ∀ res : Response, deleteCourse M st req res
      = { res := res, store := st, log := [], thrown := some typeError } := by
    intro res
    simp only [deleteCourse, hn]
  refine ⟨?_, ?_, ?_, typeError_not_kind, ?_⟩
  · intro e st0 req0 h404
    have hs := router_status A M e st0 req0
    rw [h404] at hs
    simp at hs
  · simp [router, Endpoint.authRequired, asyncHandler, Endpoint.handler, getCourseById, hn]
    rfl
  · intro res
    rw [hput res, hdel res]
    exact ⟨rfl, rfl, rfl, rfl⟩
  · intro u e ha he
    rcases he with rfl | rfl
    · obtain ⟨r1, r2, r3, _⟩ := router_authenticated_eq A M .updateCourse st req u rfl
        (by decide) ha
      rw [r1, r2, r3]
      simp only [asyncHandler, Endpoint.handler, hput]
      simp [errorFallback, Response.status, Response.finish, Response.fresh]
    · obtain ⟨r1, r2, r3, _⟩ := router_authenticated_eq A M .removeCourse st req u rfl
        (by decide) ha
      rw [r1, r2, r3]
      simp only [asyncHandler, Endpoint.handler, hdel]
      simp [errorFallback, Response.status, Response.finish, Response.fresh]

/-- Instance of C10: the id 9 resolves to no course of the store. -/
theorem not_found_policy_witness :
    (router demoLib (specModels lenient) .getCourse demoStore
        { anonymous with id := 9 }).res.json = some (Body.course none) ∧
      (router demoLib (specModels lenient) .updateCourse demoStore
        { asJo with id := 9 }).thrown = some typeError ∧
      (router demoLib (specModels lenient) .removeCourse demoStore
        { asJo with id := 9 }).store = demoStore :=
  have hJo : Authenticated demoLib demoStore { asJo with id := 9 } jo :=
    ⟨⟨"jo@example.com", "secret1"⟩, by decide, by decide, by decide⟩
  ⟨congrArg Response.json
      (not_found_policy demoLib (specModels lenient) demoStore { anonymous with id := 9 }
        (by decide)).2.1,
    ((not_found_policy demoLib (specModels lenient) demoStore { asJo with id := 9 }
      (by decide)).2.2.2.2 jo .updateCourse hJo (Or.inl rfl)).1,
    ((not_found_policy demoLib (specModels lenient) demoStore { asJo with id := 9 }
      (by decide)).2.2.2.2 jo .removeCourse hJo (Or.inr rfl)).2.2.2.2⟩

end RestApi
